import Mathlib

/-!
Verification development for `examples/frigate/frigate.py` of mqttwarn.

The Python module is shallowly embedded: JSON values parsed by `json.loads`
become the inductive `Json`; Python dicts become association lists with
unique keys looked up by first match; Python exceptions (`KeyError`,
`TypeError`/`AttributeError`, `IndexError`) become an explicit `PyError`
error channel through `Except`; warning log lines emitted through
`srv.logging.warning` are returned alongside the boolean result.
-/

namespace Frigate

/-- A parsed JSON document, the result of a successful `json.loads`.
Numbers are modelled as rationals, which represent every JSON decimal
literal exactly. -/
inductive Json where
  | null : Json
  | bool : Bool → Json
  | num : ℚ → Json
  | str : String → Json
  | arr : List Json → Json
  | obj : List (String × Json) → Json

/-- A Python dict produced by JSON parsing: an association list with
unique keys. -/
abbrev Kvs := List (String × Json)

/-- Python exceptions that the embedded code can raise. -/
inductive PyError where
  | keyError (k : String) : PyError
  | typeError : PyError
  | attributeError : PyError
  | indexError : PyError
  | valueError : PyError
  deriving DecidableEq, Repr

/-- First-match association-list lookup; models `d.get(k)` / `k in d`
on a Python dict (keys are unique after JSON parsing, so first match
is the only match). -/
def lookup : Kvs → String → Option Json
  | [], _ => none
  | (k', v) :: rest, k => if k' = k then some v else lookup rest k

/-- Models the subscript access `d[k]` on a Python dict, which raises
`KeyError` when the key is absent. -/
def getItem (kvs : Kvs) (k : String) : Except PyError Json :=
  match lookup kvs k with
  | some v => .ok v
  | none => .error (.keyError k)

/-- Python truthiness (`bool(x)`) of a parsed-JSON value. -/
def truthy : Json → Bool
  | .null => false
  | .bool b => b
  | .num q => decide (q ≠ 0)
  | .str s => decide (s ≠ "")
  | .arr xs => !xs.isEmpty
  | .obj kvs => !kvs.isEmpty

/-- Numeric view of a value: Python `==` compares `bool` and numbers
numerically (`True == 1`). -/
def toNum? : Json → Option ℚ
  | .bool b => some (if b then 1 else 0)
  | .num q => some q
  | _ => none

mutual

/-- Python `==` on parsed-JSON values: numbers and booleans compare
numerically, strings and `None` structurally, lists elementwise in
order.  Dicts compare key-by-key; since JSON-parsed dicts have unique
keys and the embedded comparisons never reorder them, pairwise
comparison in key order is used. -/
def pyEq : Json → Json → Bool
  | .null, .null => true
  | .str s, .str t => s = t
  | .arr xs, .arr ys => pyEqList xs ys
  | .obj xs, .obj ys => pyEqObj xs ys
  | a, b =>
    match toNum? a, toNum? b with
    | some x, some y => x = y
    | _, _ => false

def pyEqList : List Json → List Json → Bool
  | [], [] => true
  | x :: xs, y :: ys => pyEq x y && pyEqList xs ys
  | _, _ => false

def pyEqObj : List (String × Json) → List (String × Json) → Bool
  | [], [] => true
  | (k, v) :: xs, (k', v') :: ys => k = k' && pyEq v v' && pyEqObj xs ys
  | _, _ => false

end

/-- Python `x in xs` for a list `xs`: membership up to `==`. -/
def pyMem (x : Json) (xs : List Json) : Bool :=
  xs.any (fun s => pyEq x s)

/-- Models the identity check `value is True` (only the boolean `True`
object passes; `1` does not). -/
def isTrue : Json → Bool
  | .bool true => true
  | _ => false

/-- Models `d.get(k) is True`: an absent key yields `None`, which is
not `True`. -/
def getIsTrue (kvs : Kvs) (k : String) : Bool :=
  match lookup kvs k with
  | some v => isTrue v
  | none => false

/-! ## The filter function `frigate_events_filter` -/

/-- The fixed required-field list of `frigate_events_filter`. -/
def nonempty_fields : List String :=
  ["false_positive", "camera", "label", "current_zones", "entered_zones", "frame_time"]

/-- The required-field loop of `frigate_events_filter` (source lines
127–152): walks `fields` in order over `after`; returns the warning of
the first failing check (absent field, `false_positive is True`, or
falsy value), `none` when the loop completes.  `current_zones` is
exempt from the truthiness check; `false_positive` is compared by
identity with `True`. -/
def checkFields (after : Kvs) : List String → Option String
  | [] => none
  | field :: rest =>
    match lookup after field with
    | none => some ("Frigate event skipped, missing field: " ++ field)
    | some value =>
      if field = "current_zones" then checkFields after rest
      else if field = "false_positive" then
        if isTrue value then some "Frigate event skipped, it is a false positive"
        else checkFields after rest
      else if truthy value then checkFields after rest
      else some ("Frigate event skipped, field is empty: " ++ field)

/-- The required-field validation applied to the six `nonempty_fields`. -/
def checkRequiredFields (after : Kvs) : Option String :=
  checkFields after nonempty_fields

def stationary_log : String := "Frigate event skipped, object is stationary"

def samezone_log : String := "Frigate event skipped, object stayed within same zone"

/-- The stationary-object suppression block (source lines 154–164).
Active only when `type == "update"` and `before` is a dict.  Both
`stationary` reads use `.get` (no raise); the zone comparisons use
subscript access: the `before` zone fields are read unguarded and can
raise `KeyError`, with Python's short-circuit `or`/`and` deciding
which reads happen.  Returns the warning when the block suppresses,
`none` when it falls through. -/
def stationaryCheck (message_type : Option Json) (before : Option Json) (after : Kvs) :
    Except PyError (Option String) :=
  match message_type, before with
  | some (.str t), some (.obj b) =>
    if t = "update" then
      if getIsTrue b "stationary" && getIsTrue after "stationary" then
        .ok (some stationary_log)
      else do
        let acz ← getItem after "current_zones"
        let aez ← getItem after "entered_zones"
        if pyEq acz aez then .ok (some samezone_log)
        else do
          let bcz ← getItem b "current_zones"
          if pyEq bcz acz then do
            let bez ← getItem b "entered_zones"
            if pyEq bez aez then .ok (some samezone_log) else .ok none
          else .ok none
    else .ok none
  | _, _ => .ok none

/-- One configured skip rule: field name → list of skip values, in the
rule dict's insertion order. -/
abbrev Rule := List (String × List Json)

/-- Whether one field of a skip rule matches (source lines 173–176): a
list value matches when every element is contained in the skip values
(subset semantics); any other value matches by membership. -/
def ruleFieldMatch (skip_values : List Json) (actual_value : Json) : Bool :=
  match actual_value with
  | .arr xs => xs.all (fun v => pyMem v skip_values)
  | v => pyMem v skip_values

/-- The inner loop over one rule's fields (source lines 170–176).
`after[fieldname]` is a subscript access executed for every field, so
an absent field raises `KeyError` even when `do_skip` is already
false; the membership check itself folds with `and`. -/
def evalRule (after : Kvs) : Rule → Bool → Except PyError Bool
  | [], do_skip => .ok do_skip
  | (fieldname, skip_values) :: rest, do_skip =>
    match lookup after fieldname with
    | none => .error (.keyError fieldname)
    | some actual_value => evalRule after rest (do_skip && ruleFieldMatch skip_values actual_value)

def zoneskip_log : String := "Frigate event skipped, object did not enter zone of interest"

/-- The outer loop over the configured skip rules (source lines
169–179): the first rule whose fields all match returns `True` with a
warning; rules after it are not evaluated. -/
def evalRules (after : Kvs) : List Rule → Except PyError (Bool × List String)
  | [] => .ok (false, [])
  | r :: rest => do
    let do_skip ← evalRule after r true
    if do_skip then .ok (true, [zoneskip_log]) else evalRules after rest

/-- Models the comparison `message.get('type', None) == 'end'` (only
the exact string `"end"` compares equal). -/
def isEndType : Option Json → Bool
  | some (.str "end") => true
  | _ => false

def parse_log : String := "Can't parse Frigate event message"

def type_end_log : String := "Frigate event skipped, ignoring Message type 'end'"

def no_after_log : String := "Frigate event skipped, 'after' missing from payload"

/-- `frigate_events_filter` (source lines 99–181).  The `parsed`
argument is the outcome of `json.loads` on the raw message: `none`
models a `JSONDecodeError`, which the source catches, logs and turns
into `True`.  `frigate_skip_rules` is the per-section configuration,
as the list of rule dicts in `frigate_skip_rules.values()` order.
The result pairs the returned boolean with the warning lines logged;
a raised exception is the `Except.error` case.  A parsed message that
is not a dict fails on its first `.get` (`AttributeError`), and a
non-dict `after` fails on its first field access (modelled as a type
error). -/
def frigate_events_filter (parsed : Option Json) (frigate_skip_rules : List Rule) :
    Except PyError (Bool × List String) :=
  match parsed with
  | none => .ok (true, [parse_log])
  | some (.obj message) =>
    let message_type := lookup message "type"
    if isEndType message_type then
      .ok (true, [type_end_log])
    else
      match lookup message "after" with
      | none => .ok (true, [no_after_log])
      | some (.obj after) =>
        match checkRequiredFields after with
        | some log => .ok (true, [log])
        | none =>
          match stationaryCheck message_type (lookup message "before") after with
          | .error e => .error e
          | .ok (some log) => .ok (true, [log])
          | .ok none => evalRules after frigate_skip_rules
      | some _ => .error .typeError
  | some _ => .error .attributeError

/-! ## String rendering helpers for `frigate_events` -/

def lbrace : Char := Char.ofNat 123

def rbrace : Char := Char.ofNat 125

def squote : Char := Char.ofNat 39

mutual

/-- Python `repr()` of a parsed-JSON value, as used by `str()` on
containers.  String escaping inside `repr` is not reproduced (no
embedded quote appears in the modelled data). -/
def pyRepr : Json → String
  | .null => "None"
  | .bool true => "True"
  | .bool false => "False"
  | .num q => toString q
  | .str s => String.mk [squote] ++ s ++ String.mk [squote]
  | .arr xs => "[" ++ pyReprList xs ++ "]"
  | .obj kvs => String.mk [lbrace] ++ pyReprObj kvs ++ String.mk [rbrace]

def pyReprList : List Json → String
  | [] => ""
  | [x] => pyRepr x
  | x :: y :: rest => pyRepr x ++ ", " ++ pyReprList (y :: rest)

def pyReprObj : List (String × Json) → String
  | [] => ""
  | [(k, v)] => String.mk [squote] ++ k ++ String.mk [squote] ++ ": " ++ pyRepr v
  | (k, v) :: p :: rest =>
    String.mk [squote] ++ k ++ String.mk [squote] ++ ": " ++ pyRepr v ++ ", " ++ pyReprObj (p :: rest)

end

/-- Python `str()` of a parsed-JSON value, as interpolated by an
f-string or `str.format`: strings verbatim, containers via `repr`. -/
def pyStr : Json → String
  | .null => "None"
  | .bool true => "True"
  | .bool false => "False"
  | .num q => toString q
  | .str s => s
  | .arr xs => pyRepr (.arr xs)
  | .obj kvs => pyRepr (.obj kvs)

/-- Models `y.replace('_', ' ')` on a zone name: every underscore
character becomes a space. -/
def replaceUnderscores (s : String) : String :=
  String.mk (s.data.map (fun c => if c = '_' then ' ' else c))

/-- The elementwise traversal of the comprehension in
`FrigateEvent.f`: each `y` must be a string (`.replace` exists), and
the first non-string element fails. -/
def zoneStrs : List Json → Except PyError (List String)
  | [] => .ok []
  | v :: rest =>
    match v with
    | .str s => do
      let tl ← zoneStrs rest
      .ok (replaceUnderscores s :: tl)
    | _ => .error .typeError

/-- Models `FrigateEvent.f`, the comprehension
`[y.replace('_', ' ') for y in value]`: a list of strings maps
elementwise; a string iterates character-wise; any other value (or a
non-string list element, which has no `.replace`) fails. -/
def zoneDisplayList : Json → Except PyError (List String)
  | .arr xs => zoneStrs xs
  | .str s => .ok (s.data.map (fun c => replaceUnderscores (String.mk [c])))
  | _ => .error .typeError

/-- Models the properties `current_zones_str` / `entered_zones_str`:
a falsy value yields `""`, otherwise the display names joined with
`", "`. -/
def zones_str (v : Json) : Except PyError String :=
  if truthy v then do
    let ys ← zoneDisplayList v
    .ok (String.intercalate ", " ys)
  else .ok ""

/-- Models the subscript `value[0]`: first element of a list or first
character of a string, `IndexError` when empty. -/
def firstElem : Json → Except PyError Json
  | .arr (x :: _) => .ok x
  | .arr [] => .error .indexError
  | .str s =>
    match s.data with
    | c :: _ => .ok (.str (String.mk [c]))
    | [] => .error .indexError
  | _ => .error .typeError

/-- Models the textual rendering of
`datetime.fromtimestamp(ft, tz=timezone.utc)` inside an f-string.
The Gregorian calendar arithmetic is not reproduced; the rendering is
an injective function of the epoch value, which is the only property
the development relies on. -/
def formatUtcTime (ft : ℚ) : String := "utc+" ++ toString ft

/-! ## `str.format` interpolation (for the attachment filename template) -/

def lookupStr : List (String × String) → String → Option String
  | [], _ => none
  | (k', v) :: rest, k => if k' = k then some v else lookupStr rest k

mutual

/-- Models `template.format(**fields)` scanning: literal characters
are copied, `{{` and `}}` are escapes, `{name}` substitutes the named
field or raises `KeyError`; a stray or unterminated brace is a
`ValueError` (modelled as a type error).  Format specifications other
than a plain field name are not modelled (the repository's template
only uses plain names). -/
def pyFormatGo (fields : List (String × String)) : List Char → Except PyError (List Char)
  | [] => .ok []
  | c :: rest =>
    if c = lbrace then
      match rest with
      | [] => .error .typeError
      | c2 :: rest2 =>
        if c2 = lbrace then do
          let r ← pyFormatGo fields rest2
          .ok (lbrace :: r)
        else pyFormatField fields [] (c2 :: rest2)
    else if c = rbrace then
      match rest with
      | [] => .error .typeError
      | c2 :: rest2 =>
        if c2 = rbrace then do
          let r ← pyFormatGo fields rest2
          .ok (rbrace :: r)
        else .error .typeError
    else do
      let r ← pyFormatGo fields rest
      .ok (c :: r)

/-- Reads a replacement-field name up to the closing brace, then
substitutes and continues scanning. -/
def pyFormatField (fields : List (String × String)) (nameAcc : List Char) :
    List Char → Except PyError (List Char)
  | [] => .error .typeError
  | c :: rest =>
    if c = rbrace then
      match lookupStr fields (String.mk nameAcc.reverse) with
      | some v => do
        let r ← pyFormatGo fields rest
        .ok (v.data ++ r)
      | none => .error (.keyError (String.mk nameAcc.reverse))
    else pyFormatField fields (c :: nameAcc) rest

end

/-- Models `template.format(**event.to_dict())`. -/
def pyFormat (template : String) (fields : List (String × String)) : Except PyError String := do
  let r ← pyFormatGo fields template.data
  .ok (String.mk r)

/-! ## The transformation function `frigate_events` -/

/-- The `FrigateEvent` dataclass: `time` holds the epoch value the
`datetime` was built from; the remaining fields hold the payload
values verbatim (Python does not enforce the annotations). -/
structure FrigateEvent where
  time : ℚ
  camera : Json
  label : Json
  current_zones : Json
  entered_zones : Json

/-- Models `dataclasses.asdict(event)` as consumed by `str.format`,
which renders each value with `str()`; `time` renders as the
`datetime` string. -/
def FrigateEvent.to_dict (e : FrigateEvent) : List (String × String) :=
  [("time", formatUtcTime e.time),
   ("camera", pyStr e.camera),
   ("label", pyStr e.label),
   ("current_zones", pyStr e.current_zones),
   ("entered_zones", pyStr e.entered_zones)]

/-- The `NtfyParameters` dataclass. -/
structure NtfyParameters where
  title : String
  format : String
  click : String
  attach : Option String := none

/-- `NtfyParameters.to_dict`: `dataclasses.asdict` in field order with
`None`-valued entries removed, so an unset `attach` is absent from the
mapping. -/
def NtfyParameters.to_dict (p : NtfyParameters) : List (String × String) :=
  [("title", p.title), ("format", p.format), ("click", p.click)] ++
    match p.attach with
    | some a => [("attach", a)]
    | none => []

/-- `frigate_events` (source lines 64–96).  `clock` models the ambient
wall-clock time at invocation; the source computes the event time from
the payload's own `frame_time` only.  `filename_template` is the
service configuration value; `payload` is the outcome of `json.loads`
on `data['payload']` (`none` models a parse failure, which this
function does not catch — modelled as a `valueError`).  The
interpolated attachment filename is computed (and can raise) but the
`attach` parameter stays unset, as in the source where it is commented
out. -/
def frigate_events (clock : ℚ) (filename_template : String) (payload : Option Json) :
    Except PyError (List (String × String)) :=
  match payload with
  | none => .error .valueError
  | some (.obj message) =>
    match getItem message "after" with
    | .error e => .error e
    | .ok (.obj after) => do
      let frame_time ← getItem after "frame_time"
      let time ← match toNum? frame_time with
        | some q => Except.ok q
        | none => Except.error PyError.typeError
      let camera ← getItem after "camera"
      let sub_label ← getItem after "sub_label"
      let label ← if truthy sub_label then Except.ok sub_label else getItem after "label"
      let current_zones ← getItem after "current_zones"
      let entered_zones ← getItem after "entered_zones"
      let event : FrigateEvent :=
        { time := time, camera := camera, label := label,
          current_zones := current_zones, entered_zones := entered_zones }
      let _attach_filename ← pyFormat filename_template event.to_dict
      let entered_zones_str ← zones_str event.entered_zones
      let current_zones_str ← zones_str event.current_zones
      let zone0 ← firstElem event.entered_zones
      let ntfy_parameters : NtfyParameters :=
        { title := pyStr event.label ++ " entered " ++ entered_zones_str ++ " at " ++
            formatUtcTime event.time
          format := pyStr event.label ++ " was in " ++ current_zones_str
          click := "https://frigate/events?camera=" ++ pyStr event.camera ++ "&label=" ++
            pyStr event.label ++ "&zone=" ++ pyStr zone0 }
      .ok ntfy_parameters.to_dict
    | .ok _ => .error .typeError
  | some _ => .error .typeError

/-! ## The topic decoder `frigate_snapshot_decode_topic` -/

/-- Whether a value is a Python `str` (the source checks
`type(topic) == str`). -/
def isStr : Json → Bool
  | .str _ => true
  | _ => false

/-- Whether the remainder of the topic is exactly the literal
`/snapshot` at a position where `$` matches (end of string, or before
one trailing newline, per Python `re` semantics). -/
def snapshotTail (cs : List Char) : Bool :=
  cs == "/snapshot".data || cs == "/snapshot\n".data

/-- The `(?P<object_name>.+?)/snapshot$` part of the pattern: the
shortest non-empty run of non-newline characters followed by the
literal tail.  Returns the captured characters. -/
def objSplit : List Char → Option (List Char)
  | [] => none
  | c :: rest =>
    if c = '\n' then none
    else if snapshotTail rest then some [c]
    else
      match objSplit rest with
      | some o => some (c :: o)
      | none => none

/-- The `(?P<camera_name>.+?)/` part: the shortest non-empty run of
non-newline characters followed by `/` after which the object part
matches; on failure the camera capture is extended (regex
backtracking).  Returns both captures. -/
def camSplit : List Char → Option (List Char × List Char)
  | [] => none
  | c :: rest =>
    if c = '\n' then none
    else
      match rest with
      | '/' :: rest2 =>
        (match objSplit rest2 with
         | some o => some ([c], o)
         | none =>
           match camSplit rest with
           | some (cam, o) => some (c :: cam, o)
           | none => none)
      | _ =>
        match camSplit rest with
        | some (cam, o) => some (c :: cam, o)
        | none => none

/-- `frigate_snapshot_decode_topic` (source lines 184–202): a
non-string input returns `None`; a string is matched against
`^frigate/(?P<camera_name>.+?)/(?P<object_name>.+?)/snapshot$`; on a
match the group dict is returned, otherwise `m.groupdict()` raises on
`None` and the bare `except` turns that into the empty dict. -/
def frigate_snapshot_decode_topic (topic : Json) : Option (List (String × String)) :=
  match topic with
  | .str s =>
    some
      (if "frigate/".data.isPrefixOf s.data then
        match camSplit (s.data.drop 8) with
        | some (cam, o) =>
          [("camera_name", String.mk cam), ("object_name", String.mk o)]
        | none => []
      else [])
  | _ => none

/-- Whether a topic string matches the snapshot pattern at all. -/
def topicMatches (s : String) : Bool :=
  "frigate/".data.isPrefixOf s.data && (camSplit (s.data.drop 8)).isSome

/-! ## Spec-side predicates

`specRuleMatches` restates the skip-rule matching semantics in the
words of the specification, independently of the evaluation loop: all
listed fields must match (conjunction across the fields of one rule),
a sequence-valued field matches when every element is contained in the
allowed-value set (subset semantics), a scalar field by membership,
and a field absent from the record does not match. -/

def specRuleMatches (after : Kvs) (r : Rule) : Bool :=
  r.all (fun fv =>
    match lookup after fv.1 with
    | some (.arr elems) => elems.all (fun e => fv.2.any (fun s => pyEq e s))
    | some v => fv.2.any (fun s => pyEq v s)
    | none => false)

/-- Every field named by any configured rule is present in `after`. -/
def rulesFieldsPresent (after : Kvs) (rules : List Rule) : Bool :=
  rules.all (fun r => r.all (fun fv => (lookup after fv.1).isSome))

/-- A rule evaluates without error and does not match. -/
def ruleNoMatch (after : Kvs) (r : Rule) : Bool :=
  match evalRule after r true with
  | .ok false => true
  | _ => false

/-- Some field named by the rule is absent from `after`. -/
def ruleHasAbsentField (after : Kvs) (r : Rule) : Bool :=
  r.any (fun fv => (lookup after fv.1).isNone)

/-! ## Helper lemmas -/

/-- Once the parse, type, shape and required-field steps pass, the
filter reduces to the stationary block followed by the skip rules. -/
theorem filter_reach (msg after : Kvs) (rules : List Rule)
    (htype : isEndType (lookup msg "type") = false)
    (hafter : lookup msg "after" = some (.obj after))
    (hfields : checkRequiredFields after = none) :
    frigate_events_filter (some (.obj msg)) rules =
      match stationaryCheck (lookup msg "type") (lookup msg "before") after with
      | .error e => .error e
      | .ok (some log) => .ok (true, [log])
      | .ok none => evalRules after rules := by
  simp [frigate_events_filter, htype, hafter, hfields]

/-- When the required-field loop passes, every listed field is
present, a passing `false_positive` is not `True`, and every field
other than the two special-cased ones is truthy. -/
theorem checkFields_none_spec (after : Kvs) (fields : List String)
    (h : checkFields after fields = none) :
    ∀ f ∈ fields, ∃ v, lookup after f = some v ∧
      (f ≠ "current_zones" → f ≠ "false_positive" → truthy v = true) ∧
      (f = "false_positive" → isTrue v = false) := by
  induction fields with
  | nil => intro f hf; cases hf
  | cons g rest ih =>
    intro f hf
    cases hlg : lookup after g with
    | none => simp [checkFields, hlg] at h
    | some v =>
      by_cases hg1 : g = "current_zones"
      · subst hg1
        simp only [checkFields, hlg, if_true, if_false] at h
        rcases List.mem_cons.mp hf with rfl | hfr
        · exact ⟨v, hlg, fun hcz _ => absurd rfl hcz, fun hfp => absurd hfp (by decide)⟩
        · exact ih h f hfr
      · by_cases hg2 : g = "false_positive"
        · subst hg2
          simp only [checkFields, hlg, if_true, if_false] at h
          cases hv : isTrue v with
          | true => rw [hv] at h; simp at h
          | false =>
            rw [hv] at h
            simp at h
            rcases List.mem_cons.mp hf with rfl | hfr
            · exact ⟨v, hlg, fun _ hfp => absurd rfl hfp, fun _ => hv⟩
            · exact ih h f hfr
        · simp only [checkFields, hlg] at h
          rw [if_neg hg1, if_neg hg2] at h
          cases hv : truthy v with
          | false => rw [hv] at h; simp at h
          | true =>
            rw [hv] at h
            simp at h
            rcases List.mem_cons.mp hf with rfl | hfr
            · exact ⟨v, hlg, fun _ _ => hv, fun hfp => absurd hfp hg2⟩
            · exact ih h f hfr

/-- If a required field is absent, the required-field loop rejects. -/
theorem checkFields_missing (after : Kvs) (fields : List String) (f : String)
    (hf : f ∈ fields) (h : lookup after f = none) :
    ∃ log, checkFields after fields = some log := by
  cases hc : checkFields after fields with
  | some log => exact ⟨log, rfl⟩
  | none =>
    obtain ⟨v, hv, -⟩ := checkFields_none_spec after fields hc f hf
    rw [h] at hv
    cases hv

/-- If a required field other than `current_zones` and
`false_positive` is present but falsy, the loop rejects. -/
theorem checkFields_falsy (after : Kvs) (fields : List String) (f : String) (v : Json)
    (hf : f ∈ fields) (hf1 : f ≠ "current_zones") (hf2 : f ≠ "false_positive")
    (h : lookup after f = some v) (hv : truthy v = false) :
    ∃ log, checkFields after fields = some log := by
  cases hc : checkFields after fields with
  | some log => exact ⟨log, rfl⟩
  | none =>
    obtain ⟨w, hw, hw1, -⟩ := checkFields_none_spec after fields hc f hf
    rw [h] at hw
    cases hw
    rw [hw1 hf1 hf2] at hv
    cases hv

theorem specRuleMatches_cons (after : Kvs) (fname : String) (fvals : List Json) (rest : Rule) :
    specRuleMatches after ((fname, fvals) :: rest) =
      ((match lookup after fname with
        | some (.arr elems) => elems.all (fun e => fvals.any (fun s => pyEq e s))
        | some v => fvals.any (fun s => pyEq v s)
        | none => false) && specRuleMatches after rest) := by
  simp [specRuleMatches, List.all_cons]

/-- When all fields named by a rule are present, the rule loop
computes exactly the spec-side matching predicate. -/
theorem evalRule_eq_spec (after : Kvs) (r : Rule) (acc : Bool)
    (hp : r.all (fun fv => (lookup after fv.1).isSome) = true) :
    evalRule after r acc = .ok (acc && specRuleMatches after r) := by
  induction r generalizing acc with
  | nil => simp [evalRule, specRuleMatches]
  | cons fv rest ih =>
    obtain ⟨fname, fvals⟩ := fv
    rw [List.all_cons, Bool.and_eq_true] at hp
    obtain ⟨hp1, hp2⟩ := hp
    cases hlv : lookup after fname with
    | none => simp [hlv] at hp1
    | some v =>
      have ihr := ih (acc && ruleFieldMatch fvals v) hp2
      simp only [evalRule, hlv, ihr]
      congr 1
      rw [specRuleMatches_cons, hlv]
      cases v <;> simp [ruleFieldMatch, pyMem, Bool.and_assoc]

/-- If some field named by a rule is absent, the rule loop raises a
`KeyError` at the first such field. -/
theorem evalRule_error_of_absent (after : Kvs) (r : Rule) (acc : Bool)
    (h : ruleHasAbsentField after r = true) :
    ∃ k, evalRule after r acc = .error (.keyError k) ∧ lookup after k = none := by
  induction r generalizing acc with
  | nil => simp [ruleHasAbsentField] at h
  | cons fv rest ih =>
    cases hlv : lookup after fv.1 with
    | none => exact ⟨fv.1, by simp [evalRule, hlv], hlv⟩
    | some v =>
      have hrest : ruleHasAbsentField after rest = true := by
        simpa [ruleHasAbsentField, hlv] using h
      obtain ⟨k, hk1, hk2⟩ := ih (acc && ruleFieldMatch fv.2 v) hrest
      exact ⟨k, by simpa [evalRule, hlv] using hk1, hk2⟩

/-- When every field of every rule is present, the rule loop suppresses
exactly when some rule matches the spec-side predicate. -/
theorem evalRules_eq_spec (after : Kvs) (rules : List Rule)
    (hp : rulesFieldsPresent after rules = true) :
    evalRules after rules =
      (if rules.any (fun r => specRuleMatches after r) then .ok (true, [zoneskip_log])
       else .ok (false, [])) := by
  induction rules with
  | nil => simp [evalRules]
  | cons r rest ih =>
    rw [rulesFieldsPresent, List.all_cons, Bool.and_eq_true] at hp
    obtain ⟨hp1, hp2⟩ := hp
    have h1 := evalRule_eq_spec after r true hp1
    have h2 := ih hp2
    cases hm : specRuleMatches after r with
    | true => simp [evalRules, h1, hm, Bind.bind, Except.bind]
    | false => simp [evalRules, h1, hm, h2, Bind.bind, Except.bind]

/-- Rules that evaluate without matching are skipped by the outer
loop. -/
theorem evalRules_append_no_match (after : Kvs) (pre rest : List Rule)
    (hpre : pre.all (fun r => ruleNoMatch after r) = true) :
    evalRules after (pre ++ rest) = evalRules after rest := by
  induction pre with
  | nil => simp
  | cons r tl ih =>
    rw [List.all_cons, Bool.and_eq_true] at hpre
    obtain ⟨h1, h2⟩ := hpre
    have hr : evalRule after r true = .ok false := by
      unfold ruleNoMatch at h1
      cases he : evalRule after r true with
      | error e => simp [he] at h1
      | ok b => cases b <;> simp_all [he]
    simp only [List.cons_append, evalRules, hr]
    exact ih (by exact_mod_cast h2)

/-- A well-typed list of zone names renders as the display names
joined with a comma. -/
theorem zoneDisplayList_strings (zs : List String) :
    zoneDisplayList (.arr (zs.map Json.str)) = .ok (zs.map replaceUnderscores) := by
  show zoneStrs (zs.map Json.str) = .ok (zs.map replaceUnderscores)
  induction zs with
  | nil => rfl
  | cons z tl ih => simp [zoneStrs, ih, Bind.bind, Except.bind]

/-- `zones_str` on a list of zone-name strings. -/
theorem zones_str_strings (zs : List String) :
    zones_str (.arr (zs.map Json.str)) =
      .ok (String.intercalate ", " (zs.map replaceUnderscores)) := by
  cases zs with
  | nil => rfl
  | cons z tl =>
    have h := zoneDisplayList_strings (z :: tl)
    simp only [List.map_cons] at h
    simp [zones_str, truthy, h, Bind.bind, Except.bind]

/-- When the stationary block also falls through, the filter is the
skip-rule evaluation. -/
theorem filter_reach_rules (msg after : Kvs) (rules : List Rule)
    (htype : isEndType (lookup msg "type") = false)
    (hafter : lookup msg "after" = some (.obj after))
    (hfields : checkRequiredFields after = none)
    (hstat : stationaryCheck (lookup msg "type") (lookup msg "before") after = .ok none) :
    frigate_events_filter (some (.obj msg)) rules = evalRules after rules := by
  rw [filter_reach msg after rules htype hafter hfields, hstat]

/-- A failing required-field check makes the filter return `True` with
that check's warning. -/
theorem filter_ok_of_checkFail (msg after : Kvs) (rules : List Rule) (log : String)
    (htype : isEndType (lookup msg "type") = false)
    (hafter : lookup msg "after" = some (.obj after))
    (hlog : checkRequiredFields after = some log) :
    frigate_events_filter (some (.obj msg)) rules = .ok (true, [log]) := by
  simp [frigate_events_filter, htype, hafter, hlog]

/-! ## Claims -/

/-- C5: a raw message that does not parse as JSON makes
`frigate_events_filter` return `True` (suppress) with a single warning
log line; the parse failure is never propagated as an exception. -/
theorem c5_parse_failure_suppressed (rules : List Rule) :
    frigate_events_filter none rules = .ok (true, [parse_log]) := rfl

/-- C8: `frigate_events` is deterministic — its output depends only on
the payload and the configured filename template, not on the ambient
wall-clock time of the invocation; two invocations on the same inputs
agree. -/
theorem c8_composer_deterministic (clock1 clock2 : ℚ) (filename_template : String)
    (payload : Option Json) :
    frigate_events clock1 filename_template payload =
      frigate_events clock2 filename_template payload := rfl

/-- C6: `frigate_snapshot_decode_topic` returns `None` on any
non-string input, an empty mapping (without raising) on any string not
matching `frigate/<camera_name>/<object_name>/snapshot`, and on a
matching string the verbatim captures. -/
theorem c6_decode_topic :
    (∀ j : Json, isStr j = false → frigate_snapshot_decode_topic j = none) ∧
    (∀ s : String, topicMatches s = false →
      frigate_snapshot_decode_topic (.str s) = some []) ∧
    frigate_snapshot_decode_topic (.str "frigate/driveway/person/snapshot") =
      some [("camera_name", "driveway"), ("object_name", "person")] := by
  refine ⟨?_, ?_, rfl⟩
  · intro j h
    cases j <;> simp_all [isStr, frigate_snapshot_decode_topic]
  · intro s h
    rw [topicMatches, Bool.and_eq_false_iff] at h
    rcases h with hpre | hcam
    · simp [frigate_snapshot_decode_topic, hpre]
    · cases hcs : camSplit (s.data.drop 8) with
      | some co => rw [hcs] at hcam; cases hcam
      | none => simp [frigate_snapshot_decode_topic, hcs]

/-- Witness for C6 at concrete inputs. -/
theorem c6_decode_topic_witness :
    frigate_snapshot_decode_topic (.num 3) = none ∧
    frigate_snapshot_decode_topic (.str "frigate/driveway/person/other") = some [] ∧
    frigate_snapshot_decode_topic (.str "frigate/driveway/person/snapshot") =
      some [("camera_name", "driveway"), ("object_name", "person")] :=
  ⟨c6_decode_topic.1 (.num 3) rfl,
   c6_decode_topic.2.1 "frigate/driveway/person/other" rfl,
   c6_decode_topic.2.2⟩

/-- C1 counterexample: an `update` payload whose `after.current_zones`
and `after.entered_zones` hold the same zones in different orders (a
permutation, i.e. equal as sets) is NOT suppressed: the source
compares the lists with order-sensitive `==`, the `before` zones
differ, and with no skip rules the filter returns `False`. -/
theorem c1_set_equal_zones_counterexample :
    ([Json.str "front_yard", Json.str "side_yard"] : List Json).Perm
      [Json.str "side_yard", Json.str "front_yard"] ∧
    frigate_events_filter (some (.obj
      [("type", .str "update"),
       ("before", .obj [("current_zones", .arr []), ("entered_zones", .arr [])]),
       ("after", .obj
         [("false_positive", .bool false), ("camera", .str "driveway"),
          ("label", .str "person"),
          ("current_zones", .arr [.str "front_yard", .str "side_yard"]),
          ("entered_zones", .arr [.str "side_yard", .str "front_yard"]),
          ("frame_time", .num 1)])])) [] = .ok (false, []) :=
  ⟨List.Perm.swap _ _ _, rfl⟩

/-- C1 (amended): for an `update` payload with a `before` dict that
passes the required-field checks, if `after.current_zones` equals
`after.entered_zones` under Python `==` — order-sensitive sequence
equality, not set equality — the filter returns `True`, independent of
the `stationary` fields. -/
theorem c1_equal_zone_lists_suppress
    (msg after b : Kvs) (rules : List Rule) (acz aez : Json)
    (htype : lookup msg "type" = some (.str "update"))
    (hafter : lookup msg "after" = some (.obj after))
    (hfields : checkRequiredFields after = none)
    (hbefore : lookup msg "before" = some (.obj b))
    (hcz : lookup after "current_zones" = some acz)
    (hez : lookup after "entered_zones" = some aez)
    (heq : pyEq acz aez = true) :
    ∃ log, frigate_events_filter (some (.obj msg)) rules = .ok (true, [log]) := by
  have hend : isEndType (lookup msg "type") = false := by rw [htype]; rfl
  rw [filter_reach msg after rules hend hafter hfields, htype, hbefore]
  cases hs : getIsTrue b "stationary" && getIsTrue after "stationary" with
  | true =>
    refine ⟨stationary_log, ?_⟩
    simp [stationaryCheck, hs]
  | false =>
    refine ⟨samezone_log, ?_⟩
    simp [stationaryCheck, hs, getItem, hcz, hez, heq, Bind.bind, Except.bind]

/-- Witness for C1 (amended) at a concrete `update` payload whose zone
lists are equal elementwise. -/
theorem c1_equal_zone_lists_suppress_witness :
    ∃ log, frigate_events_filter (some (.obj
      [("type", Json.str "update"),
       ("before", .obj []),
       ("after", .obj
         [("false_positive", .bool false), ("camera", .str "c"),
          ("label", .str "p"), ("current_zones", .arr [.str "z"]),
          ("entered_zones", .arr [.str "z"]), ("frame_time", .num 1)])])) []
      = .ok (true, [log]) :=
  c1_equal_zone_lists_suppress _ _ [] [] (.arr [.str "z"]) (.arr [.str "z"])
    rfl rfl rfl rfl rfl rfl rfl

/-- C10 counterexample: an `update` payload whose `after` zone lists
differ and whose `before` lacks `entered_zones` does NOT raise when
`before.current_zones` differs from `after.current_zones`: Python's
`and` short-circuits before the unguarded `before['entered_zones']`
read, and the filter returns a boolean (`False` with no rules). -/
theorem c10_missing_before_zones_counterexample :
    lookup [("current_zones", Json.arr [Json.str "porch"])] "entered_zones" = none ∧
    frigate_events_filter (some (.obj
      [("type", .str "update"),
       ("before", .obj [("current_zones", .arr [.str "porch"])]),
       ("after", .obj
         [("false_positive", .bool false), ("camera", .str "c"),
          ("label", .str "p"), ("current_zones", .arr [.str "a"]),
          ("entered_zones", .arr [.str "b"]), ("frame_time", .num 1)])])) []
      = .ok (false, []) :=
  ⟨rfl, rfl⟩

/-- C10 (amended): in the stationary block of an `update` payload with
a `before` dict, when the both-`stationary` check does not fire and
`after.current_zones` differs from `after.entered_zones`, the `before`
zone fields are read unguarded: a missing `before.current_zones`
raises `KeyError`; a missing `before.entered_zones` raises only when
`before.current_zones` equals `after.current_zones` (otherwise the
conjunction short-circuits and evaluation proceeds to the skip
rules). -/
theorem c10_before_zone_access
    (msg after b : Kvs) (rules : List Rule) (acz aez : Json)
    (htype : lookup msg "type" = some (.str "update"))
    (hafter : lookup msg "after" = some (.obj after))
    (hfields : checkRequiredFields after = none)
    (hbefore : lookup msg "before" = some (.obj b))
    (hstat : (getIsTrue b "stationary" && getIsTrue after "stationary") = false)
    (hcz : lookup after "current_zones" = some acz)
    (hez : lookup after "entered_zones" = some aez)
    (hne : pyEq acz aez = false) :
    (lookup b "current_zones" = none →
      frigate_events_filter (some (.obj msg)) rules = .error (.keyError "current_zones")) ∧
    (∀ bcz, lookup b "current_zones" = some bcz → pyEq bcz acz = true →
      lookup b "entered_zones" = none →
      frigate_events_filter (some (.obj msg)) rules = .error (.keyError "entered_zones")) ∧
    (∀ bcz, lookup b "current_zones" = some bcz → pyEq bcz acz = false →
      frigate_events_filter (some (.obj msg)) rules = evalRules after rules) := by
  have hend : isEndType (lookup msg "type") = false := by rw [htype]; rfl
  have hred := filter_reach msg after rules hend hafter hfields
  rw [htype, hbefore] at hred
  refine ⟨?_, ?_, ?_⟩
  · intro hbcz
    rw [hred]
    simp [stationaryCheck, hstat, getItem, hcz, hez, hne, hbcz, Bind.bind, Except.bind]
  · intro bcz hbcz hbeq hbez
    rw [hred]
    simp [stationaryCheck, hstat, getItem, hcz, hez, hne, hbcz, hbeq, hbez,
      Bind.bind, Except.bind]
  · intro bcz hbcz hbeq
    rw [hred]
    simp [stationaryCheck, hstat, getItem, hcz, hez, hne, hbcz, hbeq,
      Bind.bind, Except.bind]

/-- Witness for C10 (amended): a `before` dict without
`current_zones` raises `KeyError('current_zones')`. -/
theorem c10_before_zone_access_witness :
    frigate_events_filter (some (.obj
      [("type", Json.str "update"),
       ("before", .obj []),
       ("after", .obj
         [("false_positive", .bool false), ("camera", .str "c"),
          ("label", .str "p"), ("current_zones", .arr [.str "a"]),
          ("entered_zones", .arr [.str "b"]), ("frame_time", .num 1)])])) []
      = .error (.keyError "current_zones") :=
  (c10_before_zone_access
    [("type", Json.str "update"), ("before", .obj []),
     ("after", .obj
       [("false_positive", .bool false), ("camera", .str "c"),
        ("label", .str "p"), ("current_zones", .arr [.str "a"]),
        ("entered_zones", .arr [.str "b"]), ("frame_time", .num 1)])]
    [("false_positive", .bool false), ("camera", .str "c"),
     ("label", .str "p"), ("current_zones", .arr [.str "a"]),
     ("entered_zones", .arr [.str "b"]), ("frame_time", .num 1)]
    [] [] (.arr [.str "a"]) (.arr [.str "b"])
    rfl rfl rfl rfl rfl rfl rfl rfl).1 rfl

/-- C2 counterexample: a rule set whose second rule names the field
`bogus`, absent from `after`, does not raise when the first rule fully
matches: the loop returns `True` before evaluating the misconfigured
rule. -/
theorem c2_matching_rule_masks_missing_field :
    ruleHasAbsentField
      [("false_positive", Json.bool false), ("camera", .str "cam1"),
       ("label", .str "p"), ("current_zones", .arr []),
       ("entered_zones", .arr [.str "z"]), ("frame_time", .num 1)]
      [("bogus", [Json.str "x"])] = true ∧
    frigate_events_filter (some (.obj
      [("type", .str "new"),
       ("after", .obj
         [("false_positive", .bool false), ("camera", .str "cam1"),
          ("label", .str "p"), ("current_zones", .arr []),
          ("entered_zones", .arr [.str "z"]), ("frame_time", .num 1)])]))
      [[("camera", [Json.str "cam1"])], [("bogus", [Json.str "x"])]]
      = .ok (true, [zoneskip_log]) :=
  ⟨rfl, rfl⟩

/-- C2 (amended): when the skip-rule step is reached and a rule naming
a field absent from `after` is evaluated — i.e. no fully-matching rule
precedes it — the filter raises a `KeyError` for an absent field
instead of returning a boolean; in particular this holds whenever no
configured rule fully matches. -/
theorem c2_missing_rule_field_raises
    (msg after : Kvs) (pre post : List Rule) (r : Rule)
    (htype : isEndType (lookup msg "type") = false)
    (hafter : lookup msg "after" = some (.obj after))
    (hfields : checkRequiredFields after = none)
    (hstat : stationaryCheck (lookup msg "type") (lookup msg "before") after = .ok none)
    (hpre : pre.all (fun p => ruleNoMatch after p) = true)
    (hmiss : ruleHasAbsentField after r = true) :
    ∃ k, frigate_events_filter (some (.obj msg)) (pre ++ r :: post) =
        .error (.keyError k) ∧ lookup after k = none := by
  obtain ⟨k, hk1, hk2⟩ := evalRule_error_of_absent after r true hmiss
  refine ⟨k, ?_, hk2⟩
  rw [filter_reach_rules msg after (pre ++ r :: post) htype hafter hfields hstat]
  rw [evalRules_append_no_match after pre (r :: post) hpre]
  simp [evalRules, hk1, Bind.bind, Except.bind]

/-- Witness for C2 (amended): a single rule naming the absent field
`bogus` raises `KeyError('bogus')`. -/
theorem c2_missing_rule_field_raises_witness :
    ∃ k, frigate_events_filter (some (.obj
      [("type", Json.str "new"),
       ("after", .obj
         [("false_positive", .bool false), ("camera", .str "cam1"),
          ("label", .str "p"), ("current_zones", .arr []),
          ("entered_zones", .arr [.str "z"]), ("frame_time", .num 1)])]))
      ([] ++ [("bogus", [Json.str "x"])] :: []) =
        .error (.keyError k) ∧
      lookup
        [("false_positive", Json.bool false), ("camera", .str "cam1"),
         ("label", .str "p"), ("current_zones", .arr []),
         ("entered_zones", .arr [.str "z"]), ("frame_time", .num 1)] k = none :=
  c2_missing_rule_field_raises _ _ [] [] [("bogus", [Json.str "x"])]
    rfl rfl rfl rfl rfl rfl

/-- C3: for every payload reaching the skip-rule step whose configured
rules name only fields present in `after`, the filter returns `True`
exactly when some rule matches under the spec semantics — conjunction
across the fields of one rule, disjunction across rules, subset
semantics for sequence-valued fields, membership for scalars — and
`False` exactly when no rule matches. -/
theorem c3_skip_rule_matching
    (msg after : Kvs) (rules : List Rule)
    (htype : isEndType (lookup msg "type") = false)
    (hafter : lookup msg "after" = some (.obj after))
    (hfields : checkRequiredFields after = none)
    (hstat : stationaryCheck (lookup msg "type") (lookup msg "before") after = .ok none)
    (hp : rulesFieldsPresent after rules = true) :
    (frigate_events_filter (some (.obj msg)) rules = .ok (true, [zoneskip_log]) ↔
      rules.any (fun r => specRuleMatches after r) = true) ∧
    (frigate_events_filter (some (.obj msg)) rules = .ok (false, []) ↔
      rules.any (fun r => specRuleMatches after r) = false) := by
  have hred := filter_reach_rules msg after rules htype hafter hfields hstat
  have hspec := evalRules_eq_spec after rules hp
  rw [hred, hspec]
  cases h : rules.any (fun r => specRuleMatches after r) with
  | true => simp
  | false => simp

/-- Witness for C3: the rule `{"label": ["cat", "dog"]}` suppresses an
event with `label == "cat"` and forwards one with `label ==
"person"`. -/
theorem c3_skip_rule_matching_witness :
    frigate_events_filter (some (.obj
      [("type", Json.str "new"),
       ("after", .obj
         [("false_positive", .bool false), ("camera", .str "c"),
          ("label", .str "cat"), ("current_zones", .arr []),
          ("entered_zones", .arr [.str "z"]), ("frame_time", .num 1)])]))
      [[("label", [Json.str "cat", Json.str "dog"])]] = .ok (true, [zoneskip_log]) ∧
    frigate_events_filter (some (.obj
      [("type", Json.str "new"),
       ("after", .obj
         [("false_positive", .bool false), ("camera", .str "c"),
          ("label", .str "person"), ("current_zones", .arr []),
          ("entered_zones", .arr [.str "z"]), ("frame_time", .num 1)])]))
      [[("label", [Json.str "cat", Json.str "dog"])]] = .ok (false, []) :=
  ⟨(c3_skip_rule_matching
      [("type", Json.str "new"),
       ("after", .obj
         [("false_positive", .bool false), ("camera", .str "c"),
          ("label", .str "cat"), ("current_zones", .arr []),
          ("entered_zones", .arr [.str "z"]), ("frame_time", .num 1)])]
      [("false_positive", .bool false), ("camera", .str "c"),
       ("label", .str "cat"), ("current_zones", .arr []),
       ("entered_zones", .arr [.str "z"]), ("frame_time", .num 1)]
      [[("label", [Json.str "cat", Json.str "dog"])]]
      rfl rfl rfl rfl rfl).1.mpr rfl,
   (c3_skip_rule_matching
      [("type", Json.str "new"),
       ("after", .obj
         [("false_positive", .bool false), ("camera", .str "c"),
          ("label", .str "person"), ("current_zones", .arr []),
          ("entered_zones", .arr [.str "z"]), ("frame_time", .num 1)])]
      [("false_positive", .bool false), ("camera", .str "c"),
       ("label", .str "person"), ("current_zones", .arr []),
       ("entered_zones", .arr [.str "z"]), ("frame_time", .num 1)]
      [[("label", [Json.str "cat", Json.str "dog"])]]
      rfl rfl rfl rfl rfl).2.mpr rfl⟩

/-- C9 (implicit): a rule field whose actual value in `after` is the
empty list matches vacuously — the subset check over an empty sequence
is `true` for any allowed-value set — so a rule constraining only
`current_zones` suppresses every event reaching the skip-rule step
whose `current_zones` is the empty list. -/
theorem c9_empty_zone_list_vacuous
    (msg after : Kvs) (rules : List Rule) (vals : List Json)
    (htype : isEndType (lookup msg "type") = false)
    (hafter : lookup msg "after" = some (.obj after))
    (hfields : checkRequiredFields after = none)
    (hstat : stationaryCheck (lookup msg "type") (lookup msg "before") after = .ok none)
    (hp : rulesFieldsPresent after rules = true)
    (hmem : [("current_zones", vals)] ∈ rules)
    (hcz : lookup after "current_zones" = some (.arr [])) :
    evalRule after [("current_zones", vals)] true = .ok true ∧
    frigate_events_filter (some (.obj msg)) rules = .ok (true, [zoneskip_log]) := by
  refine ⟨by simp [evalRule, hcz, ruleFieldMatch], ?_⟩
  rw [filter_reach_rules msg after rules htype hafter hfields hstat,
    evalRules_eq_spec after rules hp]
  have hmatch : specRuleMatches after [("current_zones", vals)] = true := by
    simp [specRuleMatches, hcz]
  have hany : rules.any (fun r => specRuleMatches after r) = true :=
    List.any_eq_true.mpr ⟨_, hmem, hmatch⟩
  simp [hany]

/-- Witness for C9: a rule constraining only `current_zones` (to a set
not containing any actual zone) suppresses an event whose
`current_zones` is empty. -/
theorem c9_empty_zone_list_vacuous_witness :
    frigate_events_filter (some (.obj
      [("type", Json.str "new"),
       ("after", .obj
         [("false_positive", .bool false), ("camera", .str "c"),
          ("label", .str "p"), ("current_zones", .arr []),
          ("entered_zones", .arr [.str "z"]), ("frame_time", .num 1)])]))
      [[("current_zones", [Json.str "zone_of_interest"])]] = .ok (true, [zoneskip_log]) :=
  (c9_empty_zone_list_vacuous
    [("type", Json.str "new"),
     ("after", .obj
       [("false_positive", .bool false), ("camera", .str "c"),
        ("label", .str "p"), ("current_zones", .arr []),
        ("entered_zones", .arr [.str "z"]), ("frame_time", .num 1)])]
    [("false_positive", .bool false), ("camera", .str "c"),
     ("label", .str "p"), ("current_zones", .arr []),
     ("entered_zones", .arr [.str "z"]), ("frame_time", .num 1)]
    [[("current_zones", [Json.str "zone_of_interest"])]]
    [Json.str "zone_of_interest"] rfl rfl rfl rfl rfl (List.Mem.head _) rfl).2

/-- C4: for a parseable payload whose type is not `"end"` and whose
`after` record is present: (1) the absence of any of the six required
fields makes the filter return `True`; (2) `false_positive is True`
makes it return `True` with the false-positive warning; (3) a present
but falsy `camera`, `label`, `entered_zones` or `frame_time` makes it
return `True`; (4) an empty `current_zones` alone does not cause
suppression — with every other check passing, the required-field step
passes and the filter proceeds to the skip rules. -/
theorem c4_required_field_validation
    (msg after : Kvs) (rules : List Rule)
    (htype : isEndType (lookup msg "type") = false)
    (hafter : lookup msg "after" = some (.obj after)) :
    (∀ f ∈ nonempty_fields, lookup after f = none →
      ∃ log, frigate_events_filter (some (.obj msg)) rules = .ok (true, [log])) ∧
    (∀ fp, lookup after "false_positive" = some fp → isTrue fp = true →
      frigate_events_filter (some (.obj msg)) rules =
        .ok (true, ["Frigate event skipped, it is a false positive"])) ∧
    (∀ f ∈ (["camera", "label", "entered_zones", "frame_time"] : List String), ∀ v,
      lookup after f = some v → truthy v = false →
      ∃ log, frigate_events_filter (some (.obj msg)) rules = .ok (true, [log])) ∧
    (∀ vfp vcam vlab vez vft,
      lookup after "false_positive" = some vfp → isTrue vfp = false →
      lookup after "camera" = some vcam → truthy vcam = true →
      lookup after "label" = some vlab → truthy vlab = true →
      lookup after "current_zones" = some (.arr []) →
      lookup after "entered_zones" = some vez → truthy vez = true →
      lookup after "frame_time" = some vft → truthy vft = true →
      stationaryCheck (lookup msg "type") (lookup msg "before") after = .ok none →
      checkRequiredFields after = none ∧
        frigate_events_filter (some (.obj msg)) rules = evalRules after rules) := by
  refine ⟨?_, ?_, ?_, ?_⟩
  · intro f hf h
    obtain ⟨log, hlog⟩ := checkFields_missing after nonempty_fields f hf h
    exact ⟨log, filter_ok_of_checkFail msg after rules log htype hafter hlog⟩
  · intro fp hfp hfpt
    have hlog : checkRequiredFields after =
        some "Frigate event skipped, it is a false positive" := by
      simp [checkRequiredFields, nonempty_fields, checkFields, hfp, hfpt]
    exact filter_ok_of_checkFail msg after rules _ htype hafter hlog
  · intro f hf v hv htr
    obtain ⟨h1, h2, h3⟩ :=
      (by decide :
        ∀ f ∈ (["camera", "label", "entered_zones", "frame_time"] : List String),
          f ∈ nonempty_fields ∧ f ≠ "current_zones" ∧ f ≠ "false_positive") f hf
    obtain ⟨log, hlog⟩ := checkFields_falsy after nonempty_fields f v h1 h2 h3 hv htr
    exact ⟨log, filter_ok_of_checkFail msg after rules log htype hafter hlog⟩
  · intro vfp vcam vlab vez vft hfp hfpf hcam hcamt hlab hlabt hcz hez hezt hft hftt hstat
    have hnone : checkRequiredFields after = none := by
      simp [checkRequiredFields, nonempty_fields, checkFields, hfp, hfpf, hcam, hcamt,
        hlab, hlabt, hcz, hez, hezt, hft, hftt]
    exact ⟨hnone, filter_reach_rules msg after rules htype hafter hnone hstat⟩

/-- Witness for C4 at concrete payloads: a missing `camera` field, a
true `false_positive`, an empty-string `label`, and an
empty-`current_zones` payload that is forwarded. -/
theorem c4_required_field_validation_witness :
    (∃ log, frigate_events_filter (some (.obj
      [("type", Json.str "new"),
       ("after", .obj
         [("false_positive", .bool false), ("label", .str "p"),
          ("current_zones", .arr []), ("entered_zones", .arr [.str "z"]),
          ("frame_time", .num 1)])])) [] = .ok (true, [log])) ∧
    frigate_events_filter (some (.obj
      [("type", Json.str "new"),
       ("after", .obj
         [("false_positive", .bool true), ("camera", .str "c"),
          ("label", .str "p"), ("current_zones", .arr []),
          ("entered_zones", .arr [.str "z"]), ("frame_time", .num 1)])])) [] =
      .ok (true, ["Frigate event skipped, it is a false positive"]) ∧
    (∃ log, frigate_events_filter (some (.obj
      [("type", Json.str "new"),
       ("after", .obj
         [("false_positive", .bool false), ("camera", .str "c"),
          ("label", .str ""), ("current_zones", .arr []),
          ("entered_zones", .arr [.str "z"]), ("frame_time", .num 1)])])) [] =
      .ok (true, [log])) ∧
    frigate_events_filter (some (.obj
      [("type", Json.str "new"),
       ("after", .obj
         [("false_positive", .bool false), ("camera", .str "c"),
          ("label", .str "p"), ("current_zones", .arr []),
          ("entered_zones", .arr [.str "z"]), ("frame_time", .num 1)])])) [] =
      .ok (false, []) := by
  refine ⟨?_, ?_, ?_, ?_⟩
  · exact (c4_required_field_validation
      [("type", Json.str "new"),
       ("after", .obj
         [("false_positive", .bool false), ("label", .str "p"),
          ("current_zones", .arr []), ("entered_zones", .arr [.str "z"]),
          ("frame_time", .num 1)])]
      [("false_positive", .bool false), ("label", .str "p"),
       ("current_zones", .arr []), ("entered_zones", .arr [.str "z"]),
       ("frame_time", .num 1)]
      [] rfl rfl).1 "camera" (by decide) rfl
  · exact (c4_required_field_validation
      [("type", Json.str "new"),
       ("after", .obj
         [("false_positive", .bool true), ("camera", .str "c"),
          ("label", .str "p"), ("current_zones", .arr []),
          ("entered_zones", .arr [.str "z"]), ("frame_time", .num 1)])]
      [("false_positive", .bool true), ("camera", .str "c"),
       ("label", .str "p"), ("current_zones", .arr []),
       ("entered_zones", .arr [.str "z"]), ("frame_time", .num 1)]
      [] rfl rfl).2.1 (Json.bool true) rfl rfl
  · exact (c4_required_field_validation
      [("type", Json.str "new"),
       ("after", .obj
         [("false_positive", .bool false), ("camera", .str "c"),
          ("label", .str ""), ("current_zones", .arr []),
          ("entered_zones", .arr [.str "z"]), ("frame_time", .num 1)])]
      [("false_positive", .bool false), ("camera", .str "c"),
       ("label", .str ""), ("current_zones", .arr []),
       ("entered_zones", .arr [.str "z"]), ("frame_time", .num 1)]
      [] rfl rfl).2.2.1 "label" (by decide) (Json.str "") rfl rfl
  · exact ((c4_required_field_validation
      [("type", Json.str "new"),
       ("after", .obj
         [("false_positive", .bool false), ("camera", .str "c"),
          ("label", .str "p"), ("current_zones", .arr []),
          ("entered_zones", .arr [.str "z"]), ("frame_time", .num 1)])]
      [("false_positive", .bool false), ("camera", .str "c"),
       ("label", .str "p"), ("current_zones", .arr []),
       ("entered_zones", .arr [.str "z"]), ("frame_time", .num 1)]
      [] rfl rfl).2.2.2 (Json.bool false)
      (Json.str "c") (Json.str "p") (Json.arr [Json.str "z"]) (Json.num 1)
      rfl rfl rfl rfl rfl rfl rfl rfl rfl rfl rfl rfl).2

/-- C7 counterexample: a payload that passes the filter (`sub_label`
is not among the required fields) but lacks the `sub_label` key makes
`frigate_events` raise `KeyError('sub_label')` instead of returning a
mapping. -/
theorem c7_missing_sub_label_raises :
    frigate_events_filter (some (.obj
      [("type", Json.str "new"),
       ("after", .obj
         [("false_positive", .bool false), ("camera", .str "c"),
          ("label", .str "p"), ("current_zones", .arr []),
          ("entered_zones", .arr [.str "z"]), ("frame_time", .num 1)])])) []
      = .ok (false, []) ∧
    frigate_events 0 "" (some (.obj
      [("type", Json.str "new"),
       ("after", .obj
         [("false_positive", .bool false), ("camera", .str "c"),
          ("label", .str "p"), ("current_zones", .arr []),
          ("entered_zones", .arr [.str "z"]), ("frame_time", .num 1)])]))
      = .error (.keyError "sub_label") :=
  ⟨rfl, rfl⟩

/-- C7 (amended): for a payload whose `after` record carries a numeric
`frame_time`, string `camera` and `label`, a `sub_label` key, zone
fields that are lists of strings with `entered_zones` non-empty, and a
filename template that interpolates successfully, `frigate_events`
returns exactly the keys `title`, `format` and `click` (the unset
`attach` is fully omitted): the title is
`"<label> entered <entered_zones_str> at <time>"`, the body is
`"<label> was in <current_zones_str>"` (zones joined with `", "` after
underscore replacement), and the click URL embeds the camera, the
label (taken as `sub_label` when truthy, else `label`) and the first
element of `entered_zones`. -/
theorem c7_composer_output
    (clock ft : ℚ) (tpl : String) (msg after : Kvs)
    (cam lab : String) (sub : Json) (czs : List String) (ez0 : String) (ezr : List String)
    (hafter : lookup msg "after" = some (.obj after))
    (hft : lookup after "frame_time" = some (.num ft))
    (hcam : lookup after "camera" = some (.str cam))
    (hsub : lookup after "sub_label" = some sub)
    (hlab : lookup after "label" = some (.str lab))
    (hcz : lookup after "current_zones" = some (.arr (czs.map Json.str)))
    (hez : lookup after "entered_zones" = some (.arr ((ez0 :: ezr).map Json.str)))
    (htpl : ∃ res, pyFormat tpl (FrigateEvent.to_dict
        { time := ft, camera := .str cam,
          label := if truthy sub then sub else .str lab,
          current_zones := .arr (czs.map Json.str),
          entered_zones := .arr ((ez0 :: ezr).map Json.str) }) = .ok res) :
    frigate_events clock tpl (some (.obj msg)) = .ok
      [("title", pyStr (if truthy sub then sub else .str lab) ++ " entered " ++
         String.intercalate ", " ((ez0 :: ezr).map replaceUnderscores) ++ " at " ++
         formatUtcTime ft),
       ("format", pyStr (if truthy sub then sub else .str lab) ++ " was in " ++
         String.intercalate ", " (czs.map replaceUnderscores)),
       ("click", "https://frigate/events?camera=" ++ cam ++ "&label=" ++
         pyStr (if truthy sub then sub else .str lab) ++ "&zone=" ++ ez0)] := by
  obtain ⟨res, hres⟩ := htpl
  have hezs := zones_str_strings (ez0 :: ezr)
  have hczs := zones_str_strings czs
  simp only [FrigateEvent.to_dict, pyStr, List.map_cons] at hres
  simp only [List.map_cons] at hezs
  cases hts : truthy sub with
  | true =>
    simp [hts] at hres
    simp [frigate_events, getItem, hafter, hft, toNum?, hcam, hsub, hts, hcz, hez,
      hres, hezs, hczs, firstElem, pyStr, NtfyParameters.to_dict, FrigateEvent.to_dict,
      Bind.bind, Except.bind]
  | false =>
    simp [hts] at hres
    simp [frigate_events, getItem, hafter, hft, toNum?, hcam, hsub, hts, hlab, hcz, hez,
      hres, hezs, hczs, firstElem, pyStr, NtfyParameters.to_dict, FrigateEvent.to_dict,
      Bind.bind, Except.bind]

/-- Witness for C7 (amended) at the end-to-end scenario payload. -/
theorem c7_composer_output_witness :
    frigate_events 0 "" (some (.obj
      [("type", Json.str "new"),
       ("after", .obj
         [("false_positive", .bool false), ("camera", .str "driveway"),
          ("label", .str "person"), ("sub_label", .null),
          ("current_zones", .arr []), ("entered_zones", .arr [.str "front_yard"]),
          ("frame_time", .num 1700000000)])])) = .ok
      [("title", "person entered front yard at " ++ formatUtcTime 1700000000),
       ("format", "person was in "),
       ("click", "https://frigate/events?camera=driveway&label=person&zone=front_yard")] := by
  have h := c7_composer_output 0 1700000000 ""
    [("type", Json.str "new"),
     ("after", .obj
       [("false_positive", .bool false), ("camera", .str "driveway"),
        ("label", .str "person"), ("sub_label", .null),
        ("current_zones", .arr []), ("entered_zones", .arr [.str "front_yard"]),
        ("frame_time", .num 1700000000)])]
    [("false_positive", .bool false), ("camera", .str "driveway"),
     ("label", .str "person"), ("sub_label", .null),
     ("current_zones", .arr []), ("entered_zones", .arr [.str "front_yard"]),
     ("frame_time", .num 1700000000)]
    "driveway" "person" .null [] "front_yard" []
    rfl rfl rfl rfl rfl rfl rfl ⟨"", rfl⟩
  exact h.trans (by rfl)

end Frigate

